import Mathlib

/-!
Verification of the `mcp-konnect` request client (`src/api.ts`) and tool
catalog (`src/tools.ts`).

The TypeScript sources are shallowly embedded: each request-building method
becomes a Lean function from its arguments to the request it constructs
(endpoint string, HTTP verb, optional JSON body), and the generic
`kongRequest` wrapper becomes a function producing the axios configuration
(final URL, headers, optional data) plus an error classifier for the three
failure kinds of its `catch` block.  JavaScript-specific semantics that the
source relies on (truthiness of `if (x)` and `a || b`, first-occurrence
`String.replace`, `String.startsWith`, `substring`, `encodeURIComponent`)
are modelled explicitly.
-/

namespace McpKonnect

/-! ## JavaScript string primitives used by the source -/

/-- Model of JavaScript `s.startsWith(pre)`: `pre` is a prefix of `s`. -/
def jsStartsWith (s pre : String) : Bool :=
  List.isPrefixOf pre.data s.data

/-- Model of JavaScript `String.prototype.replace` with a string pattern:
only the first occurrence of `pat` is replaced. -/
def replaceFirstList (pat repl : List Char) : List Char → List Char
  | [] => if List.isPrefixOf pat [] then repl else []
  | c :: cs =>
    if List.isPrefixOf pat (c :: cs) then repl ++ List.drop pat.length (c :: cs)
    else c :: replaceFirstList pat repl cs

/-- JavaScript `s.replace(pat, repl)` (string pattern: first occurrence only). -/
def replaceFirst (s pat repl : String) : String :=
  String.mk (replaceFirstList pat.data repl.data s.data)

/-- Model of JavaScript `s.substring(0, n)`: the first `n` characters. -/
def jsSubstringTo (s : String) (n : Nat) : String :=
  String.mk (s.data.take n)

/-- Whether `needle` occurs as a contiguous substring of the character list. -/
def containsSubList (needle : List Char) : List Char → Bool
  | [] => List.isPrefixOf needle []
  | c :: t => List.isPrefixOf needle (c :: t) || containsSubList needle t

/-- Whether `needle` occurs as a contiguous substring of `hay`. -/
def strContains (hay needle : String) : Bool :=
  containsSubList needle.data hay.data

/-! ## `encodeURIComponent`

JavaScript `encodeURIComponent` leaves ASCII alphanumerics and
`- _ . ! ~ * ' ( )` unescaped and percent-encodes every other character,
byte by byte, in UTF-8 with uppercase hex digits. -/

/-- Characters `encodeURIComponent` leaves unescaped. -/
def isUnreservedChar (c : Char) : Bool :=
  c.isAlphanum || ['-', '_', '.', '!', '~', '*', Char.ofNat 39, '(', ')'].contains c

/-- Uppercase hexadecimal digit for `n < 16`. -/
def hexDigitChar (n : Nat) : Char :=
  if n < 10 then Char.ofNat (48 + n) else Char.ofNat (55 + n)

/-- Percent-encoding `%XY` of one byte. -/
def percentByte (b : Nat) : String :=
  String.mk ['%', hexDigitChar (b / 16), hexDigitChar (b % 16)]

/-- UTF-8 encoding of a Unicode code point, as byte values. -/
def utf8Bytes (n : Nat) : List Nat :=
  if n < 128 then [n]
  else if n < 2048 then [192 + n / 64, 128 + n % 64]
  else if n < 65536 then [224 + n / 4096, 128 + n / 64 % 64, 128 + n % 64]
  else [240 + n / 262144, 128 + n / 4096 % 64, 128 + n / 64 % 64, 128 + n % 64]

/-- Model of JavaScript `encodeURIComponent`. -/
def encodeURIComponent (s : String) : String :=
  String.join (s.data.map fun c =>
    if isUnreservedChar c then String.mk [c]
    else String.join ((utf8Bytes c.toNat).map percentByte))

/-! ## JSON values (request bodies) -/

/-- JSON-serializable values, as built for request bodies by `src/api.ts`. -/
inductive Json where
  | null : Json
  | bool (b : Bool) : Json
  | num (n : Int) : Json
  | str (s : String) : Json
  | arr (items : List Json) : Json
  | obj (fields : List (String × Json)) : Json

/-- JavaScript truthiness of a JSON value (`data ? data : undefined` in
`kongRequest`): objects and arrays are truthy even when empty; `null`,
`false`, `0` and `""` are falsy. -/
def jsTruthy : Json → Bool
  | .null => false
  | .bool b => b
  | .num n => n != 0
  | .str s => s != ""
  | .arr _ => true
  | .obj _ => true

/-- Field lookup in a JSON object (`undefined` when absent or not an object). -/
def jsonField (j : Json) (key : String) : Option Json :=
  match j with
  | .obj fields =>
    match fields.find? (fun p => p.1 == key) with
    | some p => some p.2
    | none => none
  | _ => none

/-! ## Client construction (`KongApi.constructor`) -/

/-- Constructor options of `KongApi` (`KongApiOptions` in `src/api.ts`);
`none` models an absent (`undefined`) option. -/
structure KongApiOptions where
  apiKey : Option String
  apiRegion : Option String

/-- The two environment variables the constructor reads; `none` models an
unset variable. -/
structure ProcessEnv where
  KONNECT_REGION : Option String
  KONNECT_ACCESS_TOKEN : Option String

/-- JavaScript `a || b` where `a` is a possibly-undefined string: an absent
or empty string falls through to `b`. -/
def jsOr (a : Option String) (b : String) : String :=
  match a with
  | some s => if s ≠ "" then s else b
  | none => b

/-- Immutable state of a constructed `KongApi` client. -/
structure KongApiState where
  baseUrl : String
  apiKey : String

/-- `KongApi.constructor`: resolves region (options, then `KONNECT_REGION`,
then the `"us"` default) and credential (options, then
`KONNECT_ACCESS_TOKEN`, then `""`), builds the canonical `/v2` base URL, and
reports whether the missing-credential warning is emitted (`!this.apiKey`).
Construction is a total function: it never throws. -/
def mkKongApi (options : KongApiOptions) (env : ProcessEnv) : KongApiState × Bool :=
  let apiRegion := jsOr options.apiRegion (jsOr env.KONNECT_REGION "us")
  let apiKey := jsOr options.apiKey (jsOr env.KONNECT_ACCESS_TOKEN "")
  ({ baseUrl := "https://" ++ apiRegion ++ ".api.konghq.com/v2", apiKey := apiKey },
   apiKey == "")

/-! ## `kongRequest`: URL resolution, headers, body -/

/-- The axios request configuration built by `kongRequest`. -/
structure AxiosConfig where
  method : String
  url : String
  headers : List (String × String)
  data : Option Json

/-- URL resolution of `kongRequest`: when the endpoint starts with `/v3`,
the first occurrence of `/v2` is removed from the base URL
(`baseUrl.replace("/v2", "")`); the endpoint is then appended. -/
def resolveUrl (baseUrl endpoint : String) : String :=
  let b := if jsStartsWith endpoint "/v3" then replaceFirst baseUrl "/v2" "" else baseUrl
  b ++ endpoint

/-- The request configuration `kongRequest` hands to axios: resolved URL,
the three fixed headers, and `data: data ? data : undefined`. -/
def kongRequestConfig (st : KongApiState) (endpoint method : String)
    (data : Option Json) : AxiosConfig :=
  { method := method
    url := resolveUrl st.baseUrl endpoint
    headers := [
      ("Authorization", "Bearer " ++ st.apiKey),
      ("Content-Type", "application/json"),
      ("Accept", "application/json")]
    data := match data with
      | some d => if jsTruthy d then some d else none
      | none => none }

/-! ## `kongRequest`: error classification (the `catch` block) -/

/-- The error-response body as inspected by the `catch` block.
`jsonObj message serialized` models `typeof errorData === 'object'` with
`message` the object's `message` field when it is present as a string
(`none` when absent) and `serialized` its `JSON.stringify` rendering;
`text` models `typeof errorData === 'string'`; `nonJson` any other type,
for which the code appends no detail. -/
inductive RespData where
  | jsonObj (message : Option String) (serialized : String)
  | text (s : String)
  | nonJson

/-- Error message for a non-2xx response (`error.response` present):
status code always included; for an object body the `message` field when
truthy, otherwise `JSON.stringify(errorData)`; for a string body the first
200 characters (`errorData.substring(0, 200)`). -/
def remoteErrorMessage (status : Nat) (errorData : RespData) : String :=
  let base := "API Error (Status " ++ toString status ++ ")"
  match errorData with
  | .jsonObj msg ser =>
    let details := match msg with
      | some m => if m ≠ "" then m else ser
      | none => ser
    base ++ ": " ++ details
  | .text s => base ++ ": " ++ jsSubstringTo s 200
  | .nonJson => base

/-- The fixed message of the no-response (network) failure kind. -/
def networkErrorMessage : String :=
  "Network Error: No response received from Kong API. Please check your network connection and API endpoint configuration."

/-- The message of the request-construction failure kind, wrapping the
underlying transport error text. -/
def requestErrorMessage (m : String) : String :=
  "Request Error: " ++ m ++ ". Please check your request parameters and try again."

/-- The shape of an axios error as tested by the `catch` block:
`response` (with status and body) when the server answered, otherwise
`request` true when the request was sent, plus the underlying message. -/
structure AxiosErrorInfo where
  response : Option (Nat × RespData)
  request : Bool
  message : String

/-- The single failure value `kongRequest` propagates to its caller. -/
inductive KongFailure where
  | remote (msg : String)
  | network (msg : String)
  | setup (msg : String)

/-- The `if/else if/else` chain of the `catch` block: a responded error
beats a sent-but-unanswered one, which beats a construction error. -/
def classifyError (e : AxiosErrorInfo) : KongFailure :=
  match e.response with
  | some (status, errorData) => .remote (remoteErrorMessage status errorData)
  | none =>
    if e.request then .network networkErrorMessage
    else .setup (requestErrorMessage e.message)

/-! ## Operation methods of `KongApi`

Each method builds an endpoint (and, for POSTs, a body) and hands it to
`kongRequest`; the triple it passes is captured as an `OpRequest`. -/

/-- The arguments an operation method passes to `this.kongRequest`. -/
structure OpRequest where
  endpoint : String
  method : String
  data : Option Json

/-- Modelled from the spec: `src/types.ts` is not among the excerpted
sources; the spec's Query Filter is "a structural value
{field, operator, value} used to narrow analytics queries". -/
structure ApiRequestFilter where
  field : String
  operator : String
  value : String

/-- JSON rendering of one analytics query filter. -/
def apiRequestFilterJson (f : ApiRequestFilter) : Json :=
  .obj [("field", .str f.field), ("operator", .str f.operator), ("value", .str f.value)]

/-- `KongApi.queryApiRequests`: always POSTs the fixed envelope
`{time_range, filters, size}` to `/api-requests`, wrapping the string
argument in a `{type: "relative", time_range: timeRange}` object. -/
def queryApiRequests (timeRange : String) (filters : List ApiRequestFilter)
    (maxResults : Int) : OpRequest :=
  { endpoint := "/api-requests"
    method := "POST"
    data := some (.obj [
      ("time_range", .obj [("type", .str "relative"), ("time_range", .str timeRange)]),
      ("filters", .arr (filters.map apiRequestFilterJson)),
      ("size", .num maxResults)]) }

/-- `KongApi.listControlPlanes`: each optional argument is appended to the
query string only when truthy (`if (x)`), except `filterCloudGateway`,
which is appended whenever it is not `undefined`. -/
def listControlPlanes (pageSize : Int) (pageNumber : Option Int)
    (filterName : Option String) (filterClusterType : Option String)
    (filterCloudGateway : Option Bool) (labels : Option String)
    (sort : Option String) : OpRequest :=
  let e := "/control-planes?page[size]=" ++ toString pageSize
  let e := match pageNumber with
    | some n => if n ≠ 0 then e ++ "&page[number]=" ++ toString n else e
    | none => e
  let e := match filterName with
    | some s => if s ≠ "" then e ++ "&filter[name][contains]=" ++ encodeURIComponent s else e
    | none => e
  let e := match filterClusterType with
    | some s => if s ≠ "" then e ++ "&filter[cluster_type][eq]=" ++ encodeURIComponent s else e
    | none => e
  let e := match filterCloudGateway with
    | some b => e ++ "&filter[cloud_gateway]=" ++ toString b
    | none => e
  let e := match labels with
    | some s => if s ≠ "" then e ++ "&labels=" ++ encodeURIComponent s else e
    | none => e
  let e := match sort with
    | some s => if s ≠ "" then e ++ "&sort=" ++ encodeURIComponent s else e
    | none => e
  { endpoint := e, method := "GET", data := none }

/-- `KongApi.getControlPlane`. -/
def getControlPlane (controlPlaneId : String) : OpRequest :=
  { endpoint := "/control-planes/" ++ controlPlaneId, method := "GET", data := none }

/-- `KongApi.listControlPlaneGroupMemberships`: `pageAfter` is appended
un-encoded when truthy. -/
def listControlPlaneGroupMemberships (groupId : String) (pageSize : Int)
    (pageAfter : Option String) : OpRequest :=
  let e := "/control-planes/" ++ groupId ++ "/group-memberships?page[size]=" ++ toString pageSize
  let e := match pageAfter with
    | some s => if s ≠ "" then e ++ "&page[after]=" ++ s else e
    | none => e
  { endpoint := e, method := "GET", data := none }

/-- `KongApi.checkControlPlaneGroupMembership`. -/
def checkControlPlaneGroupMembership (controlPlaneId : String) : OpRequest :=
  { endpoint := "/control-planes/" ++ controlPlaneId ++ "/group-member-status"
    method := "GET", data := none }

/-- Shared shape of the four core-entity listing methods (`listServices`,
`listRoutes`, `listConsumers`, `listPlugins`): `size` always, `offset`
appended un-encoded when truthy. -/
def coreEntityEndpoint (entity : String) (controlPlaneId : String) (size : Int)
    (offset : Option String) : String :=
  let e := "/control-planes/" ++ controlPlaneId ++ "/core-entities/" ++ entity
    ++ "?size=" ++ toString size
  match offset with
  | some s => if s ≠ "" then e ++ "&offset=" ++ s else e
  | none => e

/-- `KongApi.listServices`. -/
def listServices (controlPlaneId : String) (size : Int) (offset : Option String) : OpRequest :=
  { endpoint := coreEntityEndpoint "services" controlPlaneId size offset
    method := "GET", data := none }

/-- `KongApi.listRoutes`. -/
def listRoutes (controlPlaneId : String) (size : Int) (offset : Option String) : OpRequest :=
  { endpoint := coreEntityEndpoint "routes" controlPlaneId size offset
    method := "GET", data := none }

/-- `KongApi.listConsumers`. -/
def listConsumers (controlPlaneId : String) (size : Int) (offset : Option String) : OpRequest :=
  { endpoint := coreEntityEndpoint "consumers" controlPlaneId size offset
    method := "GET", data := none }

/-- `KongApi.listPlugins`. -/
def listPlugins (controlPlaneId : String) (size : Int) (offset : Option String) : OpRequest :=
  { endpoint := coreEntityEndpoint "plugins" controlPlaneId size offset
    method := "GET", data := none }

/-- `KongApi.listDevPortalApis`: the `controlPlaneId` argument is accepted
but never used; `filterPublished` is appended whenever not `undefined`. -/
def listDevPortalApis (controlPlaneId : String) (pageSize : Int)
    (pageNumber : Option Int) (filterName : Option String)
    (filterPublished : Option Bool) (sort : Option String) : OpRequest :=
  let e := "/v3/apis?page[size]=" ++ toString pageSize
  let e := match pageNumber with
    | some n => if n ≠ 0 then e ++ "&page[number]=" ++ toString n else e
    | none => e
  let e := match filterName with
    | some s => if s ≠ "" then e ++ "&filter[name][contains]=" ++ encodeURIComponent s else e
    | none => e
  let e := match filterPublished with
    | some b => e ++ "&filter[published]=" ++ toString b
    | none => e
  let e := match sort with
    | some s => if s ≠ "" then e ++ "&sort=" ++ encodeURIComponent s else e
    | none => e
  { endpoint := e, method := "GET", data := none }

/-- `KongApi.createDevPortalApplication`: the `controlPlaneId` argument is
accepted but never used. -/
def createDevPortalApplication (controlPlaneId name description : String) : OpRequest :=
  { endpoint := "/v3/applications"
    method := "POST"
    data := some (.obj [("name", .str name), ("description", .str description)]) }

/-- `KongApi.listDevPortalPortals`. -/
def listDevPortalPortals (pageSize : Int) (pageNumber : Option Int) : OpRequest :=
  let e := "/v3/portals?page[size]=" ++ toString pageSize
  let e := match pageNumber with
    | some n => if n ≠ 0 then e ++ "&page[number]=" ++ toString n else e
    | none => e
  { endpoint := e, method := "GET", data := none }

/-- `KongApi.listDevPortalApplications`: the `controlPlaneId` argument is
accepted but never used. -/
def listDevPortalApplications (controlPlaneId : String) (pageSize : Int)
    (pageNumber : Option Int) (filterName : Option String)
    (sort : Option String) : OpRequest :=
  let e := "/v3/applications?page[size]=" ++ toString pageSize
  let e := match pageNumber with
    | some n => if n ≠ 0 then e ++ "&page[number]=" ++ toString n else e
    | none => e
  let e := match filterName with
    | some s => if s ≠ "" then e ++ "&filter[name][contains]=" ++ encodeURIComponent s else e
    | none => e
  let e := match sort with
    | some s => if s ≠ "" then e ++ "&sort=" ++ encodeURIComponent s else e
    | none => e
  { endpoint := e, method := "GET", data := none }

/-- `KongApi.createDevPortalSubscription`: the `controlPlaneId` argument is
accepted but never used. -/
def createDevPortalSubscription (controlPlaneId apiId applicationId : String) : OpRequest :=
  { endpoint := "/v3/subscriptions"
    method := "POST"
    data := some (.obj [
      ("api", .obj [("id", .str apiId)]),
      ("application", .obj [("id", .str applicationId)])]) }

/-- `KongApi.listDevPortalSubscriptions`: the `controlPlaneId` argument is
accepted but never used; note the append order (`page[number]` before the
filters) and that `applicationId`, `apiId` and `status` are appended
un-encoded while `sort` is encoded. -/
def listDevPortalSubscriptions (controlPlaneId : String)
    (applicationId : Option String) (apiId : Option String) (pageSize : Int)
    (pageNumber : Option Int) (status : Option String)
    (sort : Option String) : OpRequest :=
  let e := "/v3/subscriptions?page[size]=" ++ toString pageSize
  let e := match pageNumber with
    | some n => if n ≠ 0 then e ++ "&page[number]=" ++ toString n else e
    | none => e
  let e := match applicationId with
    | some s => if s ≠ "" then e ++ "&filter[application.id][eq]=" ++ s else e
    | none => e
  let e := match apiId with
    | some s => if s ≠ "" then e ++ "&filter[api.id][eq]=" ++ s else e
    | none => e
  let e := match status with
    | some s => if s ≠ "" then e ++ "&filter[status][eq]=" ++ s else e
    | none => e
  let e := match sort with
    | some s => if s ≠ "" then e ++ "&sort=" ++ encodeURIComponent s else e
    | none => e
  { endpoint := e, method := "GET", data := none }

/-- `KongApi.createDevPortalApiKey`: the `controlPlaneId` argument is
accepted but never used; `expires_in` enters the body only when
`expiresIn` is truthy (`if (expiresIn)`). -/
def createDevPortalApiKey (controlPlaneId subscriptionId name : String)
    (expiresIn : Option Int) : OpRequest :=
  { endpoint := "/v3/api-keys"
    method := "POST"
    data := some (.obj (
      [("name", .str name), ("subscription", .obj [("id", .str subscriptionId)])]
      ++ (match expiresIn with
          | some n => if n ≠ 0 then [("expires_in", .num n)] else []
          | none => []))) }

/-! ## The tool catalog (`src/tools.ts`) -/

/-- One entry of the tool catalog.  The zod parameter schema is kept as an
opaque value supplied by the external provider. -/
structure Tool where
  method : String
  name : String
  description : String
  parameters : String
  category : String

/-- The `tools` catalog builder of `src/tools.ts`: a pure function
assembling the sixteen descriptors in source order.  Modelled from the
spec for the two collaborators absent from the excerpted sources
(`prompts.js` and `parameters.js`): per-tool description and parameter
schema are supplied by "two external collaborators ... one function per
tool, keyed by the same method identifier", abstracted here as the lookup
functions `prompt` and `schema` applied to the method identifier. -/
def tools (prompt : String → String) (schema : String → String) : List Tool :=
  [ { method := "query_api_requests", name := "Query API Requests",
      description := prompt "query_api_requests",
      parameters := schema "query_api_requests", category := "analytics" },
    { method := "get_consumer_requests", name := "Get Consumer Requests",
      description := prompt "get_consumer_requests",
      parameters := schema "get_consumer_requests", category := "analytics" },
    { method := "list_services", name := "List Services",
      description := prompt "list_services",
      parameters := schema "list_services", category := "configuration" },
    { method := "list_routes", name := "List Routes",
      description := prompt "list_routes",
      parameters := schema "list_routes", category := "configuration" },
    { method := "list_consumers", name := "List Consumers",
      description := prompt "list_consumers",
      parameters := schema "list_consumers", category := "configuration" },
    { method := "list_plugins", name := "List Plugins",
      description := prompt "list_plugins",
      parameters := schema "list_plugins", category := "configuration" },
    { method := "list_control_planes", name := "List Control Planes",
      description := prompt "list_control_planes",
      parameters := schema "list_control_planes", category := "control_planes" },
    { method := "get_control_plane", name := "Get Control Plane",
      description := prompt "get_control_plane",
      parameters := schema "get_control_plane", category := "control_planes" },
    { method := "list_control_plane_group_memberships",
      name := "List Control Plane Group Memberships",
      description := prompt "list_control_plane_group_memberships",
      parameters := schema "list_control_plane_group_memberships",
      category := "control_planes" },
    { method := "check_control_plane_group_membership",
      name := "Check Control Plane Group Membership",
      description := prompt "check_control_plane_group_membership",
      parameters := schema "check_control_plane_group_membership",
      category := "control_planes" },
    { method := "list_apis", name := "List APIs",
      description := prompt "list_apis",
      parameters := schema "list_apis", category := "dev_portal" },
    { method := "list_portals", name := "List Portals",
      description := prompt "list_portals",
      parameters := schema "list_portals", category := "dev_portal" },
    { method := "subscribe_to_api", name := "Subscribe to API",
      description := prompt "subscribe_to_api",
      parameters := schema "subscribe_to_api", category := "dev_portal" },
    { method := "generate_api_key", name := "Generate API Key",
      description := prompt "generate_api_key",
      parameters := schema "generate_api_key", category := "dev_portal" },
    { method := "list_applications", name := "List Applications",
      description := prompt "list_applications",
      parameters := schema "list_applications", category := "dev_portal" },
    { method := "list_subscriptions", name := "List Subscriptions",
      description := prompt "list_subscriptions",
      parameters := schema "list_subscriptions", category := "dev_portal" } ]

/-! ## Query-string characterization

The design rule for query builders is stated against an explicit list of
`key=value` pairs: the endpoint must equal the path, one `?`, and the
pairs joined by single `&` separators — which makes "exactly one pair per
contributing parameter" and "no stray separator" part of the statement. -/

/-- Joins the tail pairs, each preceded by one `&`. -/
def ampTail : List String → String
  | [] => ""
  | p :: ps => "&" ++ p ++ ampTail ps

/-- Joins `key=value` pairs with single `&` separators (no leading or
trailing separator). -/
def queryJoin : List String → String
  | [] => ""
  | p :: ps => p ++ ampTail ps

/-- The `key=value` pairs `listControlPlanes` contributes, in append order. -/
def listControlPlanesPairs (pageSize : Int) (pageNumber : Option Int)
    (filterName : Option String) (filterClusterType : Option String)
    (filterCloudGateway : Option Bool) (labels : Option String)
    (sort : Option String) : List String :=
  ["page[size]=" ++ toString pageSize]
  ++ (match pageNumber with
      | some n => if n ≠ 0 then ["page[number]=" ++ toString n] else []
      | none => [])
  ++ (match filterName with
      | some s => if s ≠ "" then ["filter[name][contains]=" ++ encodeURIComponent s] else []
      | none => [])
  ++ (match filterClusterType with
      | some s => if s ≠ "" then ["filter[cluster_type][eq]=" ++ encodeURIComponent s] else []
      | none => [])
  ++ (match filterCloudGateway with
      | some b => ["filter[cloud_gateway]=" ++ toString b]
      | none => [])
  ++ (match labels with
      | some s => if s ≠ "" then ["labels=" ++ encodeURIComponent s] else []
      | none => [])
  ++ (match sort with
      | some s => if s ≠ "" then ["sort=" ++ encodeURIComponent s] else []
      | none => [])

/-- The pairs `listControlPlaneGroupMemberships` contributes. -/
def listControlPlaneGroupMembershipsPairs (pageSize : Int)
    (pageAfter : Option String) : List String :=
  ["page[size]=" ++ toString pageSize]
  ++ (match pageAfter with
      | some s => if s ≠ "" then ["page[after]=" ++ s] else []
      | none => [])

/-- The pairs the four core-entity listings contribute. -/
def coreEntityPairs (size : Int) (offset : Option String) : List String :=
  ["size=" ++ toString size]
  ++ (match offset with
      | some s => if s ≠ "" then ["offset=" ++ s] else []
      | none => [])

/-- The pairs `listDevPortalApis` contributes. -/
def listDevPortalApisPairs (pageSize : Int) (pageNumber : Option Int)
    (filterName : Option String) (filterPublished : Option Bool)
    (sort : Option String) : List String :=
  ["page[size]=" ++ toString pageSize]
  ++ (match pageNumber with
      | some n => if n ≠ 0 then ["page[number]=" ++ toString n] else []
      | none => [])
  ++ (match filterName with
      | some s => if s ≠ "" then ["filter[name][contains]=" ++ encodeURIComponent s] else []
      | none => [])
  ++ (match filterPublished with
      | some b => ["filter[published]=" ++ toString b]
      | none => [])
  ++ (match sort with
      | some s => if s ≠ "" then ["sort=" ++ encodeURIComponent s] else []
      | none => [])

/-- The pairs `listDevPortalPortals` contributes. -/
def listDevPortalPortalsPairs (pageSize : Int) (pageNumber : Option Int) : List String :=
  ["page[size]=" ++ toString pageSize]
  ++ (match pageNumber with
      | some n => if n ≠ 0 then ["page[number]=" ++ toString n] else []
      | none => [])

/-- The pairs `listDevPortalApplications` contributes. -/
def listDevPortalApplicationsPairs (pageSize : Int) (pageNumber : Option Int)
    (filterName : Option String) (sort : Option String) : List String :=
  ["page[size]=" ++ toString pageSize]
  ++ (match pageNumber with
      | some n => if n ≠ 0 then ["page[number]=" ++ toString n] else []
      | none => [])
  ++ (match filterName with
      | some s => if s ≠ "" then ["filter[name][contains]=" ++ encodeURIComponent s] else []
      | none => [])
  ++ (match sort with
      | some s => if s ≠ "" then ["sort=" ++ encodeURIComponent s] else []
      | none => [])

/-- The pairs `listDevPortalSubscriptions` contributes, in the order the
code appends them (pagination first, then the filters, then `sort`). -/
def listDevPortalSubscriptionsPairs (applicationId : Option String)
    (apiId : Option String) (pageSize : Int) (pageNumber : Option Int)
    (status : Option String) (sort : Option String) : List String :=
  ["page[size]=" ++ toString pageSize]
  ++ (match pageNumber with
      | some n => if n ≠ 0 then ["page[number]=" ++ toString n] else []
      | none => [])
  ++ (match applicationId with
      | some s => if s ≠ "" then ["filter[application.id][eq]=" ++ s] else []
      | none => [])
  ++ (match apiId with
      | some s => if s ≠ "" then ["filter[api.id][eq]=" ++ s] else []
      | none => [])
  ++ (match status with
      | some s => if s ≠ "" then ["filter[status][eq]=" ++ s] else []
      | none => [])
  ++ (match sort with
      | some s => if s ≠ "" then ["sort=" ++ encodeURIComponent s] else []
      | none => [])

/-! ## String helper lemmas -/

theorem strDataAppend (s t : String) : (s ++ t).data = s.data ++ t.data := rfl

theorem strExt {s t : String} (h : s.data = t.data) : s = t := by
  cases s; cases t; exact congrArg String.mk h

theorem strAppendAssoc (a b c : String) : (a ++ b) ++ c = a ++ (b ++ c) :=
  congrArg String.mk (List.append_assoc a.data b.data c.data)

theorem strAppendNil (a : String) : a ++ "" = a :=
  congrArg String.mk (List.append_nil a.data)

/-- `List.isPrefixOf` succeeding yields an explicit decomposition. -/
theorem isPrefixOfExists {l₁ l₂ : List Char} (h : List.isPrefixOf l₁ l₂ = true) :
    ∃ t, l₂ = l₁ ++ t := by
  induction l₁ generalizing l₂ with
  | nil => exact ⟨l₂, rfl⟩
  | cons a as ih =>
    cases l₂ with
    | nil => simp [List.isPrefixOf] at h
    | cons b bs =>
      simp only [List.isPrefixOf, Bool.and_eq_true, beq_iff_eq] at h
      obtain ⟨t, ht⟩ := ih h.2
      exact ⟨t, by rw [h.1, List.cons_append, ht]⟩

/-- The head of an appended string is the head of a nonempty left part. -/
theorem headCharAppend {s : String} (t : String) {c : Char}
    (h : s.data.head? = some c) : (s ++ t).data.head? = some c := by
  rw [strDataAppend]
  cases hd : s.data with
  | nil => rw [hd] at h; cases h
  | cons a l => rw [hd] at h; simp only [List.head?] at h; simp [hd, h]

/-- `needle` occurs in `hay` with an explicit decomposition. -/
def IncludesStr (hay needle : String) : Prop :=
  ∃ a b, hay = a ++ (needle ++ b)

/-- No element of `l` recurs after an intervening different element: any
two equal entries have only that same value between them. -/
def contiguousBy (l : List String) : Prop :=
  ∀ i j k : Fin l.length, i ≤ j → j ≤ k → l.get i = l.get k → l.get j = l.get i

instance (l : List String) : Decidable (contiguousBy l) := by
  unfold contiguousBy; infer_instance

/-! ## Claims -/

/-- C1 counterexample: the claim promises that for a `/v3` endpoint the
resolved URL "never contains `/v2`", but an endpoint that itself contains
`/v2` after the `/v3` prefix (for example `/v3/v2`) yields a URL that does:
only the base-URL copy of `/v2` is removed. -/
theorem resolveUrl_v3_contains_v2_counterexample :
    (mkKongApi { apiKey := some "token", apiRegion := some "us" }
        { KONNECT_REGION := none, KONNECT_ACCESS_TOKEN := none }).1.baseUrl
      = "https://us.api.konghq.com/v2" ∧
    jsStartsWith "/v3/v2" "/v3" = true ∧
    resolveUrl "https://us.api.konghq.com/v2" "/v3/v2"
      = "https://us.api.konghq.com/v3/v2" ∧
    strContains "https://us.api.konghq.com/v3/v2" "/v2" = true := by
  refine ⟨rfl, by decide, by decide, by decide⟩

/-- C1 (amended): for every endpoint beginning with `/v3` the resolved URL
for region `us` is exactly `https://us.api.konghq.com` followed by the
endpoint — the `/v2` segment of the base URL is removed and the `/v3`
prefix is preserved, so the URL starts with `https://us.api.konghq.com/v3`
and the base contributes no `/v2` (the URL can contain `/v2` only where the
endpoint itself does); for every endpoint not beginning with `/v3` the
`/v2` base URL is used unchanged. -/
theorem resolveUrl_v3_version_stripping (endpoint : String) :
    (jsStartsWith endpoint "/v3" = true →
      resolveUrl "https://us.api.konghq.com/v2" endpoint
        = "https://us.api.konghq.com" ++ endpoint ∧
      ∃ rest, resolveUrl "https://us.api.konghq.com/v2" endpoint
        = "https://us.api.konghq.com/v3" ++ rest) ∧
    (jsStartsWith endpoint "/v3" = false →
      resolveUrl "https://us.api.konghq.com/v2" endpoint
        = "https://us.api.konghq.com/v2" ++ endpoint) := by
  constructor
  · intro h
    have hurl : resolveUrl "https://us.api.konghq.com/v2" endpoint
        = "https://us.api.konghq.com" ++ endpoint := by
      show (if jsStartsWith endpoint "/v3"
        then replaceFirst "https://us.api.konghq.com/v2" "/v2" ""
        else "https://us.api.konghq.com/v2") ++ endpoint
          = "https://us.api.konghq.com" ++ endpoint
      rw [h]; rfl
    refine ⟨hurl, ?_⟩
    have h' : List.isPrefixOf "/v3".data endpoint.data = true := h
    obtain ⟨t, ht⟩ := isPrefixOfExists h'
    refine ⟨String.mk t, ?_⟩
    rw [hurl]
    apply strExt
    rw [strDataAppend, strDataAppend, ht]
    rfl
  · intro h
    show (if jsStartsWith endpoint "/v3"
      then replaceFirst "https://us.api.konghq.com/v2" "/v2" ""
      else "https://us.api.konghq.com/v2") ++ endpoint
        = "https://us.api.konghq.com/v2" ++ endpoint
    rw [h]; rfl

/-- Witness for the amended C1 theorem at `/v3/apis` and `/control-planes`. -/
theorem resolveUrl_v3_version_stripping_witness :
    resolveUrl "https://us.api.konghq.com/v2" "/v3/apis"
      = "https://us.api.konghq.com" ++ "/v3/apis" ∧
    resolveUrl "https://us.api.konghq.com/v2" "/control-planes"
      = "https://us.api.konghq.com/v2" ++ "/control-planes" :=
  ⟨((resolveUrl_v3_version_stripping "/v3/apis").1 (by decide)).1,
   (resolveUrl_v3_version_stripping "/control-planes").2 (by decide)⟩

/-- C6: on every dev-portal operation the `controlPlaneId` argument never
influences the constructed endpoint, method or body: two calls differing
only in `controlPlaneId` build identical requests. -/
theorem devPortal_controlPlaneId_ignored (cp cp' : String) :
    (∀ ps pn fn fp so,
      listDevPortalApis cp ps pn fn fp so = listDevPortalApis cp' ps pn fn fp so) ∧
    (∀ n d,
      createDevPortalApplication cp n d = createDevPortalApplication cp' n d) ∧
    (∀ ps pn fn so,
      listDevPortalApplications cp ps pn fn so = listDevPortalApplications cp' ps pn fn so) ∧
    (∀ a b,
      createDevPortalSubscription cp a b = createDevPortalSubscription cp' a b) ∧
    (∀ aid api ps pn st so,
      listDevPortalSubscriptions cp aid api ps pn st so
        = listDevPortalSubscriptions cp' aid api ps pn st so) ∧
    (∀ sub n e,
      createDevPortalApiKey cp sub n e = createDevPortalApiKey cp' sub n e) :=
  ⟨fun _ _ _ _ _ => rfl, fun _ _ => rfl, fun _ _ _ _ => rfl, fun _ _ => rfl,
   fun _ _ _ _ _ _ => rfl, fun _ _ _ => rfl⟩

/-- C7 counterexample: the time-range argument of `queryApiRequests` is not
a tagged value passed through verbatim — it is a plain string that the
operation wraps in an object with a hard-coded `type: "relative"` tag, so
the envelope's `time_range` field is never the argument itself, and its tag
is `"relative"` even for an argument describing an absolute bound. -/
theorem queryApiRequests_timeRange_wrapped_counterexample :
    jsonField ((queryApiRequests "15m" [] 100).data.getD Json.null) "time_range"
      = some (Json.obj [("type", Json.str "relative"), ("time_range", Json.str "15m")]) ∧
    Json.obj [("type", Json.str "relative"), ("time_range", Json.str "15m")]
      ≠ Json.str "15m" ∧
    jsonField ((jsonField ((queryApiRequests "2024-01-01T00:00:00Z" [] 1).data.getD Json.null)
        "time_range").getD Json.null) "type"
      = some (Json.str "relative") :=
  ⟨rfl, fun h => Json.noConfusion h, rfl⟩

/-- C7 (amended): the analytics query operation always POSTs the fixed
JSON envelope `{time_range, filters, size}` to `/api-requests`, where the
time-range argument is a plain string that the operation wraps in a
relative-tagged object `{type: "relative", time_range: <argument>}`,
embedding the argument string verbatim as the inner `time_range` field; an
absolute bound cannot be expressed through this operation. -/
theorem queryApiRequests_fixed_envelope (timeRange : String)
    (filters : List ApiRequestFilter) (maxResults : Int) :
    queryApiRequests timeRange filters maxResults =
      { endpoint := "/api-requests"
        method := "POST"
        data := some (Json.obj [
          ("time_range", Json.obj [("type", Json.str "relative"),
                                   ("time_range", Json.str timeRange)]),
          ("filters", Json.arr (filters.map apiRequestFilterJson)),
          ("size", Json.num maxResults)]) } := rfl

/-- C8: construction with no credential anywhere succeeds (the constructor
is a total function), resolves region and credential once — region
defaulting to `us`, credential to `""` with the warning flag set — and the
subsequent request still carries the (empty) bearer credential, deferring
the authentication failure to the remote service. -/
theorem constructor_defers_credential_failure :
    (∀ options env,
      (mkKongApi options env).1.baseUrl
        = "https://" ++ jsOr options.apiRegion (jsOr env.KONNECT_REGION "us")
          ++ ".api.konghq.com/v2" ∧
      (mkKongApi options env).1.apiKey
        = jsOr options.apiKey (jsOr env.KONNECT_ACCESS_TOKEN "") ∧
      (mkKongApi options env).2 = ((mkKongApi options env).1.apiKey == "")) ∧
    mkKongApi { apiKey := none, apiRegion := none }
        { KONNECT_REGION := none, KONNECT_ACCESS_TOKEN := none }
      = ({ baseUrl := "https://us.api.konghq.com/v2", apiKey := "" }, true) ∧
    (kongRequestConfig { baseUrl := "https://us.api.konghq.com/v2", apiKey := "" }
        "/control-planes" "GET" none).headers
      = [("Authorization", "Bearer "), ("Content-Type", "application/json"),
         ("Accept", "application/json")] :=
  ⟨fun _ _ => ⟨rfl, rfl, rfl⟩, rfl, rfl⟩

/-- C9: every request built by `kongRequest` carries exactly the three
headers Authorization (bearer credential), Content-Type and Accept (both
JSON), and the data field is omitted whenever no body argument was given
(and equals the provided body exactly when that body is truthy). -/
theorem kongRequest_headers_and_body (st : KongApiState) (endpoint method : String) :
    (∀ data, (kongRequestConfig st endpoint method data).headers =
      [("Authorization", "Bearer " ++ st.apiKey),
       ("Content-Type", "application/json"),
       ("Accept", "application/json")]) ∧
    (kongRequestConfig st endpoint method none).data = none ∧
    (∀ d, (kongRequestConfig st endpoint method (some d)).data =
      if jsTruthy d then some d else none) :=
  ⟨fun _ => rfl, rfl, fun _ => rfl⟩

/-- C10: explicitly supplied falsy optional arguments are silently dropped
where the builder tests truthiness (`pageNumber = 0`, empty-string
filters, `expiresIn = 0`), while `filterCloudGateway = false` is kept
because that builder tests only for `undefined`. -/
theorem falsy_optional_arguments_omitted :
    (listControlPlanes 10 (some 0) none none none none none).endpoint
      = "/control-planes?page[size]=10" ∧
    strContains (listControlPlanes 10 (some 0) none none none none none).endpoint
      "page[number]" = false ∧
    (listControlPlanes 10 none none none (some false) none none).endpoint
      = "/control-planes?page[size]=10&filter[cloud_gateway]=false" ∧
    (listControlPlanes 10 none (some "") none none none none).endpoint
      = "/control-planes?page[size]=10" ∧
    (∀ cp sub n, createDevPortalApiKey cp sub n (some 0)
      = createDevPortalApiKey cp sub n none) ∧
    (createDevPortalApiKey "cp" "sub" "k" (some 0)).data
      = some (Json.obj [("name", Json.str "k"),
          ("subscription", Json.obj [("id", Json.str "sub")])]) ∧
    (∀ cpId aid ps, listDevPortalSubscriptions cpId aid none ps none (some "") none
      = listDevPortalSubscriptions cpId aid none ps none none none) :=
  ⟨by decide, by decide, by decide, by decide, fun _ _ _ => rfl, rfl,
   fun _ _ _ => rfl⟩

/-- Every remote-error message begins with the letter `A` of
`"API Error (Status ..."`, whatever the status and body. -/
theorem remoteErrorMessage_head (status : Nat) (errorData : RespData) :
    (remoteErrorMessage status errorData).data.head? = some 'A' := by
  have hbase : (("API Error (Status " ++ toString status) ++ ")").data.head? = some 'A' :=
    headCharAppend _ (headCharAppend _ (by decide))
  cases errorData with
  | jsonObj msg ser => exact headCharAppend _ hbase
  | text s => exact headCharAppend _ hbase
  | nonJson => exact hbase

/-- C3: a non-2xx response yields an error whose text includes the numeric
status code; for an object body the `message` field is embedded when
truthy and the `JSON.stringify` fallback when the field is absent; for a
string body the embedded excerpt is `substring(0, 200)`, whose length is
exactly 200 whenever the body is longer than 200 characters. -/
theorem remote_error_message_content (status : Nat) :
    (∀ errorData, IncludesStr (remoteErrorMessage status errorData) (toString status)) ∧
    (∀ msg ser, msg ≠ "" → remoteErrorMessage status (.jsonObj (some msg) ser)
      = "API Error (Status " ++ toString status ++ ")" ++ ": " ++ msg) ∧
    (∀ ser, remoteErrorMessage status (.jsonObj none ser)
      = "API Error (Status " ++ toString status ++ ")" ++ ": " ++ ser) ∧
    (∀ s, remoteErrorMessage status (.text s)
      = "API Error (Status " ++ toString status ++ ")" ++ ": " ++ jsSubstringTo s 200) ∧
    (∀ s : String, 200 < s.length → (jsSubstringTo s 200).length = 200) := by
  refine ⟨?_, ?_, ?_, ?_, ?_⟩
  · intro errorData
    cases errorData with
    | jsonObj msg ser =>
      cases msg with
      | some m =>
        by_cases hm : m = ""
        · refine ⟨"API Error (Status ", ")" ++ (": " ++ ser), ?_⟩
          show (("API Error (Status " ++ toString status ++ ")") ++ ": ")
              ++ (if m ≠ "" then m else ser) = _
          rw [if_neg (fun hc => hc hm)]
          simp only [strAppendAssoc]
        · refine ⟨"API Error (Status ", ")" ++ (": " ++ m), ?_⟩
          show (("API Error (Status " ++ toString status ++ ")") ++ ": ")
              ++ (if m ≠ "" then m else ser) = _
          rw [if_pos hm]
          simp only [strAppendAssoc]
      | none =>
        refine ⟨"API Error (Status ", ")" ++ (": " ++ ser), ?_⟩
        show (("API Error (Status " ++ toString status ++ ")") ++ ": ") ++ ser = _
        simp only [strAppendAssoc]
    | text s =>
      refine ⟨"API Error (Status ", ")" ++ (": " ++ jsSubstringTo s 200), ?_⟩
      show (("API Error (Status " ++ toString status ++ ")") ++ ": ")
          ++ jsSubstringTo s 200 = _
      simp only [strAppendAssoc]
    | nonJson =>
      exact ⟨"API Error (Status ", ")", strAppendAssoc _ _ _⟩
  · intro msg ser h
    show (("API Error (Status " ++ toString status ++ ")") ++ ": ")
        ++ (if msg ≠ "" then msg else ser)
      = "API Error (Status " ++ toString status ++ ")" ++ ": " ++ msg
    rw [if_pos h]
  · intro ser; rfl
  · intro s; rfl
  · intro s h
    show (s.data.take 200).length = 200
    rw [List.length_take]
    exact Nat.min_eq_left (Nat.le_of_lt h)

set_option maxRecDepth 4000 in
/-- Witness for the C3 theorem at status 404 with a truthy `message`
field and with a 201-character plain-text body. -/
theorem remote_error_message_content_witness :
    remoteErrorMessage 404 (RespData.jsonObj (some "oops") "serialized")
      = "API Error (Status " ++ toString 404 ++ ")" ++ ": " ++ "oops" ∧
    (jsSubstringTo (String.mk (List.replicate 201 'a')) 200).length = 200 :=
  ⟨(remote_error_message_content 404).2.1 "oops" "serialized" (by decide),
   (remote_error_message_content 404).2.2.2.2 (String.mk (List.replicate 201 'a'))
     (by decide)⟩

/-- C4: the `catch` chain is exhaustive and mutually exclusive — a
responded error always classifies as the remote kind, a sent-but-unanswered
request as the network kind with its fixed message, anything else as the
setup kind wrapping the underlying message; the network message contains no
digit (hence no status code) and the three kinds' messages are pairwise
distinct, so they are programmatically distinguishable; every failure is a
single `KongFailure` value (no retry is modelled anywhere). -/
theorem kongRequest_failure_taxonomy :
    (∀ e : AxiosErrorInfo, ∀ status errorData,
      e.response = some (status, errorData) →
      classifyError e = .remote (remoteErrorMessage status errorData)) ∧
    (∀ e : AxiosErrorInfo, e.response = none → e.request = true →
      classifyError e = .network networkErrorMessage) ∧
    (∀ e : AxiosErrorInfo, e.response = none → e.request = false →
      classifyError e = .setup (requestErrorMessage e.message)) ∧
    (∀ c ∈ networkErrorMessage.data, ¬ c.isDigit) ∧
    (∀ status errorData, remoteErrorMessage status errorData ≠ networkErrorMessage) ∧
    (∀ m, networkErrorMessage ≠ requestErrorMessage m) ∧
    (∀ status errorData m,
      remoteErrorMessage status errorData ≠ requestErrorMessage m) := by
  refine ⟨?_, ?_, ?_, by decide, ?_, ?_, ?_⟩
  · intro e status errorData h
    simp only [classifyError, h]
  · intro e h hr
    simp only [classifyError, h, hr, if_true]
  · intro e h hr
    simp only [classifyError, h, hr, Bool.false_eq_true, if_false]
  · intro status errorData h
    have hA := remoteErrorMessage_head status errorData
    rw [h] at hA
    exact absurd hA (by decide)
  · intro m h
    have hR : (requestErrorMessage m).data.head? = some 'R' :=
      headCharAppend _ (headCharAppend _ (by decide))
    rw [← h] at hR
    exact absurd hR (by decide)
  · intro status errorData m h
    have hA := remoteErrorMessage_head status errorData
    have hR : (requestErrorMessage m).data.head? = some 'R' :=
      headCharAppend _ (headCharAppend _ (by decide))
    rw [h] at hA
    exact absurd (hA.symm.trans hR) (by decide)

/-- Witness for the C4 theorem on three concrete axios errors. -/
theorem kongRequest_failure_taxonomy_witness :
    classifyError { response := some (500, RespData.nonJson), request := true, message := "x" }
      = KongFailure.remote (remoteErrorMessage 500 RespData.nonJson) ∧
    classifyError { response := none, request := true, message := "x" }
      = KongFailure.network networkErrorMessage ∧
    classifyError { response := none, request := false, message := "boom" }
      = KongFailure.setup (requestErrorMessage "boom") ∧
    remoteErrorMessage 500 RespData.nonJson ≠ networkErrorMessage :=
  ⟨kongRequest_failure_taxonomy.1 _ 500 RespData.nonJson rfl,
   kongRequest_failure_taxonomy.2.1 _ rfl rfl,
   kongRequest_failure_taxonomy.2.2.1 _ rfl rfl,
   kongRequest_failure_taxonomy.2.2.2.2.1 500 RespData.nonJson⟩

/-- C5: the catalog builder is pure (two invocations yield equal
collections, whatever the external description/schema providers), every
method identifier in the catalog is unique, and entries sharing a category
are contiguous in the returned order. -/
theorem tools_catalog_invariants (prompt schema : String → String) :
    tools prompt schema = tools prompt schema ∧
    ((tools prompt schema).map Tool.method).Nodup ∧
    contiguousBy ((tools prompt schema).map Tool.category) := by
  refine ⟨rfl, ?_, ?_⟩
  · have h : (tools prompt schema).map Tool.method =
      ["query_api_requests", "get_consumer_requests", "list_services", "list_routes",
       "list_consumers", "list_plugins", "list_control_planes", "get_control_plane",
       "list_control_plane_group_memberships", "check_control_plane_group_membership",
       "list_apis", "list_portals", "subscribe_to_api", "generate_api_key",
       "list_applications", "list_subscriptions"] := rfl
    rw [h]; decide
  · have h : (tools prompt schema).map Tool.category =
      ["analytics", "analytics", "configuration", "configuration", "configuration",
       "configuration", "control_planes", "control_planes", "control_planes",
       "control_planes", "dev_portal", "dev_portal", "dev_portal", "dev_portal",
       "dev_portal", "dev_portal"] := rfl
    rw [h]; decide

/-- C2 counterexample: the claim fails on the code in two ways.  First, an
explicitly provided falsy parameter contributes no pair: `pageNumber = 0`
is dropped from the `listControlPlanes` query string.  Second, pairs are
not appended in the operation's declared parameter order:
`listDevPortalSubscriptions` declares `applicationId` before `pageNumber`,
yet appends `page[number]` before `filter[application.id][eq]`. -/
theorem query_string_claim_counterexample :
    (listControlPlanes 10 (some 0) none none none none none).endpoint
      = "/control-planes?page[size]=10" ∧
    strContains (listControlPlanes 10 (some 0) none none none none none).endpoint
      "page[number]" = false ∧
    (listDevPortalSubscriptions "cp" (some "app") none 10 (some 2) none none).endpoint
      = "/v3/subscriptions?page[size]=10&page[number]=2&filter[application.id][eq]=app" :=
  ⟨by decide, by decide, by decide⟩

set_option maxHeartbeats 2000000 in
/-- C2 (amended): every query-building operation produces its path, one
`?`, and exactly the `key=value` pairs of the parameters that contribute
under the builder's own test (truthiness for numbers and free-text
strings; any non-`undefined` value for the boolean filters), joined by
single `&` separators — hence no stray `&` or `?` — in the builder's
append order (`page[size]` first, then the remaining arguments in the
textual order of the builder, which for `listDevPortalSubscriptions`
places pagination before the filters), with values percent-encoded exactly
where the builder encodes them (the free-text filters, labels and sort;
not the id, status, offset or cursor values). -/
theorem query_string_characterization :
    (∀ ps pn fn fct fcg lb so,
      (listControlPlanes ps pn fn fct fcg lb so).endpoint
        = "/control-planes?"
          ++ queryJoin (listControlPlanesPairs ps pn fn fct fcg lb so)) ∧
    (∀ gid ps pa,
      (listControlPlaneGroupMemberships gid ps pa).endpoint
        = "/control-planes/" ++ gid ++ "/group-memberships?"
          ++ queryJoin (listControlPlaneGroupMembershipsPairs ps pa)) ∧
    (∀ entity cp size off,
      coreEntityEndpoint entity cp size off
        = "/control-planes/" ++ cp ++ "/core-entities/" ++ entity ++ "?"
          ++ queryJoin (coreEntityPairs size off)) ∧
    (∀ cp size off,
      (listServices cp size off).endpoint = coreEntityEndpoint "services" cp size off ∧
      (listRoutes cp size off).endpoint = coreEntityEndpoint "routes" cp size off ∧
      (listConsumers cp size off).endpoint = coreEntityEndpoint "consumers" cp size off ∧
      (listPlugins cp size off).endpoint = coreEntityEndpoint "plugins" cp size off) ∧
    (∀ cp ps pn fn fp so,
      (listDevPortalApis cp ps pn fn fp so).endpoint
        = "/v3/apis?" ++ queryJoin (listDevPortalApisPairs ps pn fn fp so)) ∧
    (∀ ps pn,
      (listDevPortalPortals ps pn).endpoint
        = "/v3/portals?" ++ queryJoin (listDevPortalPortalsPairs ps pn)) ∧
    (∀ cp ps pn fn so,
      (listDevPortalApplications cp ps pn fn so).endpoint
        = "/v3/applications?" ++ queryJoin (listDevPortalApplicationsPairs ps pn fn so)) ∧
    (∀ cp aid api ps pn st so,
      (listDevPortalSubscriptions cp aid api ps pn st so).endpoint
        = "/v3/subscriptions?"
          ++ queryJoin (listDevPortalSubscriptionsPairs aid api ps pn st so)) := by
  refine ⟨?_, ?_, ?_, ?_, ?_, ?_, ?_, ?_⟩
  · intro ps pn fn fct fcg lb so
    cases pn <;> cases fn <;> cases fct <;> cases fcg <;> cases lb <;> cases so <;>
      simp only [listControlPlanes, listControlPlanesPairs, queryJoin, ampTail,
        List.nil_append, List.append_nil, List.cons_append, List.singleton_append,
        ne_eq] <;>
      (try split_ifs) <;>
      (try simp only [queryJoin, ampTail, List.nil_append, List.append_nil,
        List.cons_append, List.singleton_append, strAppendAssoc, strAppendNil]) <;>
      rfl
  · intro gid ps pa
    cases pa <;>
      simp only [listControlPlaneGroupMemberships,
        listControlPlaneGroupMembershipsPairs, queryJoin, ampTail,
        List.nil_append, List.append_nil, List.cons_append, List.singleton_append,
        ne_eq] <;>
      (try split_ifs) <;>
      (try simp only [queryJoin, ampTail, List.nil_append, List.append_nil,
        List.cons_append, List.singleton_append, strAppendAssoc, strAppendNil]) <;>
      rfl
  · intro entity cp size off
    cases off <;>
      simp only [coreEntityEndpoint, coreEntityPairs, queryJoin, ampTail,
        List.nil_append, List.append_nil, List.cons_append, List.singleton_append,
        ne_eq] <;>
      (try split_ifs) <;>
      (try simp only [queryJoin, ampTail, List.nil_append, List.append_nil,
        List.cons_append, List.singleton_append, strAppendAssoc, strAppendNil]) <;>
      rfl
  · exact fun cp size off => ⟨rfl, rfl, rfl, rfl⟩
  · intro cp ps pn fn fp so
    cases pn <;> cases fn <;> cases fp <;> cases so <;>
      simp only [listDevPortalApis, listDevPortalApisPairs, queryJoin, ampTail,
        List.nil_append, List.append_nil, List.cons_append, List.singleton_append,
        ne_eq] <;>
      (try split_ifs) <;>
      (try simp only [queryJoin, ampTail, List.nil_append, List.append_nil,
        List.cons_append, List.singleton_append, strAppendAssoc, strAppendNil]) <;>
      rfl
  · intro ps pn
    cases pn <;>
      simp only [listDevPortalPortals, listDevPortalPortalsPairs, queryJoin, ampTail,
        List.nil_append, List.append_nil, List.cons_append, List.singleton_append,
        ne_eq] <;>
      (try split_ifs) <;>
      (try simp only [queryJoin, ampTail, List.nil_append, List.append_nil,
        List.cons_append, List.singleton_append, strAppendAssoc, strAppendNil]) <;>
      rfl
  · intro cp ps pn fn so
    cases pn <;> cases fn <;> cases so <;>
      simp only [listDevPortalApplications, listDevPortalApplicationsPairs,
        queryJoin, ampTail, List.nil_append, List.append_nil, List.cons_append,
        List.singleton_append, ne_eq] <;>
      (try split_ifs) <;>
      (try simp only [queryJoin, ampTail, List.nil_append, List.append_nil,
        List.cons_append, List.singleton_append, strAppendAssoc, strAppendNil]) <;>
      rfl
  · intro cp aid api ps pn st so
    cases aid <;> cases api <;> cases pn <;> cases st <;> cases so <;>
      simp only [listDevPortalSubscriptions, listDevPortalSubscriptionsPairs,
        queryJoin, ampTail, List.nil_append, List.append_nil, List.cons_append,
        List.singleton_append, ne_eq] <;>
      (try split_ifs) <;>
      (try simp only [queryJoin, ampTail, List.nil_append, List.append_nil,
        List.cons_append, List.singleton_append, strAppendAssoc, strAppendNil]) <;>
      rfl

end McpKonnect
